import Mathlib

/-!
Verification of the configuration-resolution and rendering engine of the
waybar-crypto status-bar widget.

The definitions below are a shallow embedding of the Python package:
  - `waybar_crypto/config.py` (default format table, default precisions)
  - `waybar_crypto/waybar_crypto.py` (symbol lookup and the `waybar_output`
    renderer of class `WaybarCrypto`)

Modelling conventions:
  - Python dicts (which preserve insertion order) are association lists
    `List (String × α)`; subscript access is `List.lookup`, iteration is the
    list itself, and a failed subscript is a `KeyError` value.
  - Python exceptions are an explicit error type `PyErr` and fallible code
    returns `Except PyErr α`; a raised exception aborts the rest of the
    computation exactly as the exception would.
  - Python floats are modelled as decimal fixed-point rationals
    (`PyFloat`, an integer mantissa with a power-of-ten shift); `round(x, n)`
    is modelled by round-half-to-even and `str.format` fixed-point rendering
    by an executable decimal printer.  No claim below depends on
    float-specific digit behaviour, only on which numbers and templates flow
    where.
  - `str.lower` is modelled on the ASCII range by `Char.toLower`.
-/

namespace WaybarCrypto

/-- Errors the rendering engine can raise.  `waybarCrypto` models the package
exception class `WaybarCryptoException`; `keyError` models a Python builtin
`KeyError` raised by a failed dict subscript. -/
inductive PyErr where
  | waybarCrypto (message : String)
  | keyError (key : String)
deriving DecidableEq, Repr

/-- The Python exception class name an error would be raised with. -/
def errClass : PyErr → String
  | PyErr.waybarCrypto _ => "WaybarCryptoException"
  | PyErr.keyError _ => "KeyError"

/-- Model of a Python float value: the decimal fixed-point rational
`mantissa / 10 ^ shift`.  Exact binary float behaviour is irrelevant to every
claim below (no claim inspects digits), so the decimal model keeps the
pipeline executable. -/
structure PyFloat where
  mantissa : Int
  shift : Nat
deriving DecidableEq, Repr

/-- `QuoteEntry` of waybar_crypto.py: one currency entry of a quote. -/
structure QuoteEntry where
  price : PyFloat
  volume_24h : PyFloat
  volume_change_24h : PyFloat
  percent_change_1h : PyFloat
  percent_change_24h : PyFloat
  percent_change_7d : PyFloat
  percent_change_30d : PyFloat
  percent_change_60d : PyFloat
  percent_change_90d : PyFloat
  last_updated : String
deriving DecidableEq, Repr

/-- Dict subscript `pair_info[display_option]` on a parsed `QuoteEntry`.
Only the nine numeric metric fields are retrievable: `read_config` validates
every display option against the metric table, so the (non-numeric)
`last_updated` field is never requested by the renderer. -/
def quoteField (e : QuoteEntry) (k : String) : Option PyFloat :=
  if k == "price" then some e.price
  else if k == "volume_24h" then some e.volume_24h
  else if k == "volume_change_24h" then some e.volume_change_24h
  else if k == "percent_change_1h" then some e.percent_change_1h
  else if k == "percent_change_24h" then some e.percent_change_24h
  else if k == "percent_change_7d" then some e.percent_change_7d
  else if k == "percent_change_30d" then some e.percent_change_30d
  else if k == "percent_change_60d" then some e.percent_change_60d
  else if k == "percent_change_90d" then some e.percent_change_90d
  else none

/-- `QuoteData` of waybar_crypto.py. -/
structure QuoteData where
  id : Int
  name : String
  symbol : String
  quote : List (String × QuoteEntry)
deriving DecidableEq, Repr

/-- `ResponseStatus` of waybar_crypto.py. -/
structure ResponseStatus where
  timestamp : String
  error_code : Int
  error_message : String
  elapsed : Int
  credit_count : Int
deriving DecidableEq, Repr

/-- `ResponseQuotesLatest` of waybar_crypto.py. -/
structure ResponseQuotesLatest where
  status : ResponseStatus
  data : List (String × QuoteData)
deriving DecidableEq, Repr

/-- `ConfigCoin` of config.py.  `display_options_format` is `NotRequired`,
hence an `Option`; `coin_config.get("display_options_format", \x7b\x7d)`
becomes `getD` with the empty list. -/
structure ConfigCoin where
  icon : String
  in_tooltip : Bool
  price_precision : Nat
  change_precision : Nat
  volume_precision : Nat
  display_options_format : Option (List (String × String)) := none
deriving DecidableEq, Repr

/-- `ConfigGeneral` of config.py. -/
structure ConfigGeneral where
  api_key : String
  currency_symbol : String
  currency : String
  display_options_format : List (String × String)
  display_options : List String
  spacer_symbol : String
deriving DecidableEq, Repr

/-- `Config` of config.py. -/
structure Config where
  general : ConfigGeneral
  coins : List (String × ConfigCoin)
deriving DecidableEq, Repr

/-- The Waybar output object (`WaybarOutput` TypedDict): the `class` field is
named `className` because `class` is reserved in Lean. -/
structure WaybarOutput where
  text : String
  tooltip : String
  className : String
deriving DecidableEq, Repr

/-- `CLASS_NAME` of waybar_crypto.py. -/
def CLASS_NAME : String := "crypto"

/-- `DEFAULT_PRECISION` of config.py. -/
def DEFAULT_PRECISION : Nat := 2

/-- `FLOAT_FORMATTER` of config.py, the Python template `\x7bval:.\x7bdp\x7df\x7d`. -/
def FLOAT_FORMATTER : String := "\x7bval:.\x7bdp\x7df\x7d"

/-- `DEFAULT_DISPLAY_OPTIONS_FORMAT` of config.py: the built-in default format
template for each metric identifier. -/
def DEFAULT_DISPLAY_OPTIONS_FORMAT : List (String × String) := [
  ("price", FLOAT_FORMATTER),
  ("percent_change_1h", "1h:" ++ FLOAT_FORMATTER ++ "%"),
  ("percent_change_24h", "24h:" ++ FLOAT_FORMATTER ++ "%"),
  ("percent_change_7d", "7d:" ++ FLOAT_FORMATTER ++ "%"),
  ("percent_change_30d", "30d:" ++ FLOAT_FORMATTER ++ "%"),
  ("percent_change_60d", "60d:" ++ FLOAT_FORMATTER ++ "%"),
  ("percent_change_90d", "90d:" ++ FLOAT_FORMATTER ++ "%"),
  ("volume_24h", "24hVol:" ++ FLOAT_FORMATTER),
  ("volume_change_24h", "24hVol:" ++ FLOAT_FORMATTER ++ "%")]

/-- Model of Python `str.lower`, restricted to the ASCII range (the only range
exercised by exchange symbols). -/
def pyLower (s : String) : String := String.mk (s.data.map Char.toLower)

/-- `WaybarCrypto._find_coin_data`: exact key match first, then the first key
matching case-insensitively, else the `symbol not found` exception. -/
def find_coin_data (data : List (String × QuoteData)) (symbol : String) :
    Except PyErr QuoteData :=
  match data.lookup symbol with
  | some v => Except.ok v
  | none =>
    let symbol_lower := pyLower symbol
    match data.find? (fun kv => pyLower kv.1 == symbol_lower) with
    | some kv => Except.ok kv.2
    | none =>
      Except.error (PyErr.waybarCrypto
        ("symbol \x27" ++ symbol ++ "\x27 not found in API response"))

/-- Ten to a natural power, as an integer (kept executable for the kernel). -/
def tenPow (n : Nat) : Int := Int.ofNat ((10 : Nat) ^ n)

/-- Integer division rounding half to even, for a positive divisor: the
rounding mode of Python `round`. -/
def divRoundHalfEven (a b : Int) : Int :=
  let q := Int.fdiv a b
  let r := a - q * b
  if 2 * r < b then q
  else if b < 2 * r then q + 1
  else if q % 2 = 0 then q else q + 1

/-- The integer mantissa of `x` rescaled to `ndigits` decimal digits, rounding
half to even. -/
def scaleTo (x : PyFloat) (ndigits : Nat) : Int :=
  if x.shift ≤ ndigits then x.mantissa * tenPow (ndigits - x.shift)
  else divRoundHalfEven x.mantissa (tenPow (x.shift - ndigits))

/-- Model of Python `round(x, ndigits)` on the decimal model of floats. -/
def pyRound (x : PyFloat) (ndigits : Nat) : PyFloat :=
  { mantissa := scaleTo x ndigits, shift := ndigits }

/-- Left-pad a digit string with zeros to the given width. -/
def padZeros (s : String) (w : Nat) : String :=
  String.mk (List.replicate (w - s.length) (Char.ofNat 48)) ++ s

/-- Fixed-point rendering of a value with `dp` decimal digits, the model of
the Python format spec `.Nf`. -/
def formatFixed (val : PyFloat) (dp : Nat) : String :=
  let n := scaleTo val dp
  let sign := if n < 0 then "-" else ""
  let m := n.natAbs
  let base := (10 : Nat) ^ dp
  if dp = 0 then sign ++ Nat.repr m
  else sign ++ Nat.repr (m / base) ++ "." ++ padZeros (Nat.repr (m % base)) dp

/-- The left-brace and right-brace characters, written by code point. -/
def lbrace : Char := Char.ofNat 123

/-- See `lbrace`. -/
def rbrace : Char := Char.ofNat 125

/-- Characters of the template slot `\x7bval:.\x7bdp\x7df\x7d`. -/
def fmtPatVal : List Char :=
  [lbrace, 'v', 'a', 'l', ':', '.', lbrace, 'd', 'p', rbrace, 'f', rbrace]

/-- Characters of the template slot `\x7bdp\x7d`. -/
def fmtPatDp : List Char := [lbrace, 'd', 'p', rbrace]

/-- Characters of the template slot `\x7bval\x7d`. -/
def fmtPatValPlain : List Char := [lbrace, 'v', 'a', 'l', rbrace]

/-- One fuel-indexed pass of the `str.format` model: scan the character list
and substitute each occurrence of the three slot forms the program uses.  The
fuel always starts at the length of the list, so the fuel-exhausted case is
unreachable. -/
def substFmtAux (dp : Nat) (val : PyFloat) : Nat → List Char → List Char
  | 0, l => l
  | _ + 1, [] => []
  | fuel + 1, c :: cs =>
    if fmtPatVal.isPrefixOf (c :: cs) then
      (formatFixed val dp).data ++ substFmtAux dp val fuel ((c :: cs).drop fmtPatVal.length)
    else if fmtPatDp.isPrefixOf (c :: cs) then
      (Nat.repr dp).data ++ substFmtAux dp val fuel ((c :: cs).drop fmtPatDp.length)
    else if fmtPatValPlain.isPrefixOf (c :: cs) then
      (formatFixed val dp).data ++ substFmtAux dp val fuel ((c :: cs).drop fmtPatValPlain.length)
    else c :: substFmtAux dp val fuel cs

/-- Model of Python `fmt.format(dp=dp, val=val)` restricted to the slot forms
this program uses: `\x7bval:.\x7bdp\x7df\x7d` renders the value with `dp`
decimals, `\x7bdp\x7d` the precision, `\x7bval\x7d` the bare value.  Template
text without these slots is copied verbatim. -/
def pyFormat (fmt : String) (dp : Nat) (val : PyFloat) : String :=
  String.mk (substFmtAux dp val fmt.data.length fmt.data)

/-- Substring test, the model of Python `sub in s`. -/
def listIsInfixOf (p : List Char) : List Char → Bool
  | [] => p.isEmpty
  | a :: l => p.isPrefixOf (a :: l) || listIsInfixOf p l

/-- See `listIsInfixOf`. -/
def strContains (s sub : String) : Bool := listIsInfixOf sub.data s.data

/-- Precision dispatch of `waybar_output` (the loop head over display
options): ordered substring tests, `volume` before `change` before `price`,
with `DEFAULT_PRECISION` as the fallthrough. -/
def precisionFor (display_option : String)
    (volume_precision change_precision price_precision : Nat) : Nat :=
  if strContains display_option "volume" then volume_precision
  else if strContains display_option "change" then change_precision
  else if strContains display_option "price" then price_precision
  else DEFAULT_PRECISION

/-- Body of the display-option loop of `waybar_output` for one metric:
select the precision, extract and round the raw value, resolve the format,
then substitute into `" " + format_str`.  The source resolution is
`coin_format_overrides.get(display_option, display_options_format[display_option])`:
Python evaluates the default argument of `.get` eagerly, so the global
subscript is evaluated — and its `KeyError` raised — before the per-coin
override is consulted, even when the override is present. -/
def renderMetric (display_options_format coin_format_overrides : List (String × String))
    (pair_info : QuoteEntry) (volume_precision change_precision price_precision : Nat)
    (display_option : String) : Except PyErr String := do
  let precision := precisionFor display_option volume_precision change_precision price_precision
  let raw ← match quoteField pair_info display_option with
    | some v => Except.ok v
    | none => Except.error (PyErr.keyError display_option)
  let value := pyRound raw precision
  let default_format ← match display_options_format.lookup display_option with
    | some f => Except.ok f
    | none => Except.error (PyErr.keyError display_option)
  let format_str := (coin_format_overrides.lookup display_option).getD default_format
  Except.ok (pyFormat (" " ++ format_str) precision value)

/-- Fold of a Python `for` loop whose body can raise: the first raise aborts
the whole loop. -/
def exceptFold (f : β → α → Except ε β) : β → List α → Except ε β
  | b, [] => Except.ok b
  | b, a :: l => do
    let b2 ← f b a
    exceptFold f b2 l

/-- Effectful map over a list in `Except`, aborting at the first error. -/
def exceptMap (f : α → Except ε β) : List α → Except ε (List β)
  | [] => Except.ok []
  | a :: l => do
    let b ← f a
    let bs ← exceptMap f l
    Except.ok (b :: bs)

/-- Per-coin part of the `waybar_output` loop (waybar_crypto.py lines
146-175): look up the coin and the currency pair, then render every display
option in order after the icon. -/
def renderCoin (general : ConfigGeneral) (data : List (String × QuoteData))
    (coin_name : String) (coin_config : ConfigCoin) : Except PyErr String := do
  let icon := coin_config.icon
  let price_precision := coin_config.price_precision
  let volume_precision := coin_config.volume_precision
  let change_precision := coin_config.change_precision
  let coin_data ← find_coin_data data coin_name
  let pair_info ← match coin_data.quote.lookup general.currency with
    | some v => Except.ok v
    | none => Except.error (PyErr.keyError general.currency)
  let coin_format_overrides := coin_config.display_options_format.getD []
  exceptFold
    (fun output display_option => do
      let part ← renderMetric general.display_options_format coin_format_overrides
        pair_info volume_precision change_precision price_precision display_option
      Except.ok (output ++ part))
    icon general.display_options

/-- Accumulator update of `waybar_output` (lines 177-184): place the rendered
coin block in the tooltip or the text, prepending the placement separator when
the accumulator is already non-empty. -/
def appendBlock (spacer : String) (output_obj : WaybarOutput)
    (output : String) (in_tooltip : Bool) : WaybarOutput :=
  if in_tooltip then
    let output := if output_obj.tooltip != "" then "\n" ++ output else output
    { output_obj with tooltip := output_obj.tooltip ++ output }
  else
    let output := if output_obj.text != "" then spacer ++ " " ++ output else output
    { output_obj with text := output_obj.text ++ output }

/-- `WaybarCrypto.waybar_output` (waybar_crypto.py lines 130-186). -/
def waybar_output (config : Config) (quotes_latest : ResponseQuotesLatest) :
    Except PyErr WaybarOutput :=
  let spacer0 := config.general.spacer_symbol
  let spacer := if spacer0 != "" then " " ++ spacer0 else spacer0
  exceptFold
    (fun output_obj kv => do
      let output ← renderCoin config.general quotes_latest.data kv.1 kv.2
      Except.ok (appendBlock spacer output_obj output kv.2.in_tooltip))
    { text := "", tooltip := "", className := CLASS_NAME }
    config.coins

/-- Join a list of blocks with a separator inserted between consecutive
blocks: the formal form of the separator transition rule (no separator before
the first block, one separator before every later block). -/
def joinSep (sep : String) : List String → String
  | [] => ""
  | [b] => b
  | b :: bs => b ++ sep ++ joinSep sep bs

/-- The main-line separator that `waybar_output` inserts between two
consecutive main-line blocks: the space-padded spacer symbol (lines 134-136)
followed by the single space of `f"\x7bspacer\x7d \x7boutput\x7d"` (line 183). -/
def mainSeparator (spacer_symbol : String) : String :=
  (if spacer_symbol != "" then " " ++ spacer_symbol else spacer_symbol) ++ " "

/-- All coin blocks in configured order, paired with their placement flag. -/
def renderBlocks (config : Config) (quotes_latest : ResponseQuotesLatest) :
    Except PyErr (List (String × Bool)) :=
  exceptMap
    (fun kv => (renderCoin config.general quotes_latest.data kv.1 kv.2).map
      (fun s => (s, kv.2.in_tooltip)))
    config.coins

/-- The rendered blocks of the coins placed on the main line, in configured
order (empty on a failed render). -/
def mainBlocks (config : Config) (quotes_latest : ResponseQuotesLatest) : List String :=
  match renderBlocks config quotes_latest with
  | Except.ok bs => (bs.filter (fun b => !b.2)).map Prod.fst
  | Except.error _ => []

/-- The rendered blocks of the coins placed in the tooltip, in configured
order (empty on a failed render). -/
def tooltipBlocks (config : Config) (quotes_latest : ResponseQuotesLatest) : List String :=
  match renderBlocks config quotes_latest with
  | Except.ok bs => (bs.filter (fun b => b.2)).map Prod.fst
  | Except.error _ => []

/-- Order-explicit specification form of the renderer: render every coin in
configured order, then join the main-line blocks with the main separator and
the tooltip blocks with newlines. -/
def waybar_output_spec (config : Config) (quotes_latest : ResponseQuotesLatest) :
    Except PyErr WaybarOutput :=
  (renderBlocks config quotes_latest).map (fun bs =>
    { text := joinSep (mainSeparator config.general.spacer_symbol)
        ((bs.filter (fun b => !b.2)).map Prod.fst),
      tooltip := joinSep "\n" ((bs.filter (fun b => b.2)).map Prod.fst),
      className := CLASS_NAME })

/-- A configured coin symbol is resolvable against a response when the symbol
lookup succeeds and the located record has the configured currency key. -/
def coinResolvable (data : List (String × QuoteData)) (currency symbol : String) : Bool :=
  match find_coin_data data symbol with
  | Except.ok d => (d.quote.lookup currency).isSome
  | Except.error _ => false

/-- State-passing translation of `waybar_output`: the configuration object is
threaded through every loop iteration and returned alongside the result.  No
statement of the source assigns into `self.config`, so each iteration passes
the configuration on unchanged. -/
def waybar_output_frame (config : Config) (quotes_latest : ResponseQuotesLatest) :
    Except PyErr (WaybarOutput × Config) :=
  let spacer0 := config.general.spacer_symbol
  let spacer := if spacer0 != "" then " " ++ spacer0 else spacer0
  exceptFold
    (fun acc kv => do
      let conf := acc.2
      let output ← renderCoin conf.general quotes_latest.data kv.1 kv.2
      Except.ok (appendBlock spacer acc.1 output kv.2.in_tooltip, conf))
    ({ text := "", tooltip := "", className := CLASS_NAME }, config)
    config.coins

/-- Sample quote entry used as a concrete witness input (values abridged from
the test fixture of the repository). -/
def sampleEntry : QuoteEntry :=
  { price := ⟨62885476, 3⟩, volume_24h := ⟨25044422439, 0⟩,
    volume_change_24h := ⟨605157, 4⟩,
    percent_change_1h := ⟨883, 3⟩, percent_change_24h := ⟨23, 1⟩,
    percent_change_7d := ⟨888, 2⟩, percent_change_30d := ⟨471, 2⟩,
    percent_change_60d := ⟨313, 2⟩, percent_change_90d := ⟨3396, 2⟩,
    last_updated := "2024-05-27T12:58:04.000Z" }

/-- Sample response status for witness inputs. -/
def sampleStatus : ResponseStatus :=
  { timestamp := "2024-05-20T17:29:45.646Z", error_code := 0, error_message := "",
    elapsed := 5, credit_count := 1 }

/-- Sample coin record keyed by the EUR currency. -/
def btcData : QuoteData :=
  { id := 1, name := "Bitcoin", symbol := "BTC", quote := [("EUR", sampleEntry)] }

/-- Sample response holding only the BTC record. -/
def sampleResp : ResponseQuotesLatest :=
  { status := sampleStatus, data := [("BTC", btcData)] }

/-- Build a general section for witness configurations. -/
def mkGeneral (fmt : List (String × String)) (opts : List String)
    (spacer_symbol : String) : ConfigGeneral :=
  { api_key := "k", currency_symbol := "E", currency := "EUR",
    display_options_format := fmt, display_options := opts,
    spacer_symbol := spacer_symbol }

/-- Build a coin section for witness configurations. -/
def mkCoin (icon : String) (in_tooltip : Bool)
    (ovr : Option (List (String × String))) : ConfigCoin :=
  { icon := icon, in_tooltip := in_tooltip, price_precision := 2,
    change_precision := 2, volume_precision := 2, display_options_format := ovr }

/-- Configuration with no global and no per-coin format override for the one
requested metric `price` (exactly what `read_config` produces when the file
sets no `format_price` option). -/
def c1cfg : Config := ⟨mkGeneral [] ["price"] "", [("BTC", mkCoin "B" false none)]⟩

/-- Coin record whose quote mapping lacks the configured EUR currency. -/
def usdData : QuoteData :=
  { id := 1, name := "Bitcoin", symbol := "BTC", quote := [("USD", sampleEntry)] }

/-- Configuration requesting a symbol absent from the sample response. -/
def c4cfgA : Config :=
  ⟨mkGeneral [("price", "p")] ["price"] "", [("DOGE", mkCoin "D" false none)]⟩

/-- Configuration whose symbol is present but whose currency is missing from
the response of `c4respB`. -/
def c4cfgB : Config :=
  ⟨mkGeneral [("price", "p")] ["price"] "", [("BTC", mkCoin "B" false none)]⟩

/-- Response whose BTC record only quotes USD. -/
def c4respB : ResponseQuotesLatest := ⟨sampleStatus, [("BTC", usdData)]⟩

/-- Configuration with a single coin routed to the tooltip. -/
def c6cfg : Config := ⟨mkGeneral [("price", "p")] ["price"] "", [("BTC", mkCoin "B" true none)]⟩

/-- Three-coin witness configuration: two main-line coins and one tooltip
coin, with a pipe spacer. -/
def wcfg5 : Config :=
  ⟨mkGeneral [("price", "p")] ["price"] "|",
    [("A", mkCoin "Ai" false none), ("B", mkCoin "Bi" false none),
      ("C", mkCoin "Ci" true none)]⟩

/-- Response carrying records for all three coins of `wcfg5`. -/
def wresp5 : ResponseQuotesLatest :=
  ⟨sampleStatus, [("A", btcData), ("B", btcData), ("C", btcData)]⟩

/-- Configuration whose coin carries a per-coin format override for the one
requested metric while the global format mapping is empty. -/
def c2cfg : Config :=
  ⟨mkGeneral [] ["price"] "", [("BTC", mkCoin "B" false (some [("price", "P")]))]⟩

theorem str_eq_empty_iff (s : String) : s = "" ↔ s.data = [] := by
  cases s; simp [String.ext_iff]

theorem append_ne_empty_left {s : String} (t : String) (h : s ≠ "") : s ++ t ≠ "" := by
  intro hc
  apply h
  rw [str_eq_empty_iff] at hc ⊢
  rw [String.data_append] at hc
  exact (List.append_eq_nil.mp hc).1

theorem append_ne_empty_right (s : String) {t : String} (h : t ≠ "") : s ++ t ≠ "" := by
  intro hc
  apply h
  rw [str_eq_empty_iff] at hc ⊢
  rw [String.data_append] at hc
  exact (List.append_eq_nil.mp hc).2

theorem joinSep_cons_cons (sep b c : String) (bs : List String) :
    joinSep sep (b :: c :: bs) = b ++ sep ++ joinSep sep (c :: bs) := rfl

theorem joinSep_ne_empty (sep : String) {b : String} (bs : List String) (h : b ≠ "") :
    joinSep sep (b :: bs) ≠ "" := by
  cases bs with
  | nil => simpa [joinSep] using h
  | cons c cs =>
    rw [joinSep_cons_cons]
    exact append_ne_empty_left _ (append_ne_empty_left _ h)

theorem joinSep_snoc (sep b : String) :
    ∀ (ms : List String), ms ≠ [] →
      joinSep sep (ms ++ [b]) = joinSep sep ms ++ sep ++ b
  | [], h => absurd rfl h
  | [m], _ => by simp [joinSep]
  | m :: m2 :: ms, _ => by
    have ih := joinSep_snoc sep b (m2 :: ms) (by simp)
    simp only [List.cons_append] at ih ⊢
    rw [joinSep_cons_cons, ih, joinSep_cons_cons]
    simp [String.append_assoc]

theorem substFmtAux_space (dp : Nat) (val : PyFloat) (n : Nat) (l : List Char) :
    substFmtAux dp val (n + 1) (Char.ofNat 32 :: l) = Char.ofNat 32 :: substFmtAux dp val n l := by
  have h1 : fmtPatVal.isPrefixOf (Char.ofNat 32 :: l) = false := by
    simp [fmtPatVal, List.isPrefixOf, lbrace]
  have h2 : fmtPatDp.isPrefixOf (Char.ofNat 32 :: l) = false := by
    simp [fmtPatDp, List.isPrefixOf, lbrace]
  have h3 : fmtPatValPlain.isPrefixOf (Char.ofNat 32 :: l) = false := by
    simp [fmtPatValPlain, List.isPrefixOf, lbrace]
  simp [substFmtAux, h1, h2, h3]

theorem space_data : " ".data = [Char.ofNat 32] := by decide

theorem pyFormat_space_ne_empty (f : String) (dp : Nat) (val : PyFloat) :
    pyFormat (" " ++ f) dp val ≠ "" := by
  have hd : (" " ++ f).data = Char.ofNat 32 :: f.data := by
    rw [String.data_append, space_data]; rfl
  rw [Ne, str_eq_empty_iff]
  simp only [pyFormat, hd]
  rw [show (Char.ofNat 32 :: f.data).length = f.data.length + 1 from by simp]
  rw [substFmtAux_space]
  simp

theorem renderMetric_ok_ne_empty {dof cfo : List (String × String)} {e : QuoteEntry}
    {vp cp pp : Nat} {d : String} {p : String}
    (h : renderMetric dof cfo e vp cp pp d = Except.ok p) : p ≠ "" := by
  unfold renderMetric at h
  cases hq : quoteField e d with
  | none => simp [hq, Except.instMonad, Except.bind] at h
  | some raw =>
    simp only [hq, Except.instMonad, Except.bind] at h
    cases hg : dof.lookup d with
    | none => simp [hg, Except.instMonad, Except.bind] at h
    | some f =>
      simp only [hg, Except.instMonad, Except.bind] at h
      cases h
      exact pyFormat_space_ne_empty _ _ _

theorem renderMetric_override (dof cfo : List (String × String)) (e : QuoteEntry)
    (vp cp pp : Nat) (d f g : String) (raw : PyFloat)
    (ho : cfo.lookup d = some f) (hg : dof.lookup d = some g)
    (hq : quoteField e d = some raw) :
    renderMetric dof cfo e vp cp pp d =
      Except.ok (pyFormat (" " ++ f) (precisionFor d vp cp pp)
        (pyRound raw (precisionFor d vp cp pp))) := by
  unfold renderMetric
  simp [hq, hg, ho, Except.instMonad, Except.bind]

theorem exceptFold_acc_ne_empty
    (step : String → String → Except PyErr String)
    (hstep : ∀ acc d s, step acc d = Except.ok s → acc ≠ "" → s ≠ "") :
    ∀ (l : List String) (acc out : String),
      exceptFold step acc l = Except.ok out → acc ≠ "" → out ≠ ""
  | [], acc, out, h, hacc => by
    simp [exceptFold] at h
    exact h ▸ hacc
  | d :: l, acc, out, h, hacc => by
    simp only [exceptFold, Except.instMonad, Except.bind] at h
    cases hs : step acc d with
    | error e => rw [hs] at h; cases h
    | ok acc2 =>
      rw [hs] at h
      exact exceptFold_acc_ne_empty step hstep l acc2 out h (hstep acc d acc2 hs hacc)

theorem renderCoin_ok_ne_empty {g : ConfigGeneral} {data : List (String × QuoteData)}
    {cn : String} {cc : ConfigCoin} {s : String}
    (hopts : g.display_options ≠ []) (h : renderCoin g data cn cc = Except.ok s) :
    s ≠ "" := by
  unfold renderCoin at h
  cases hf : find_coin_data data cn with
  | error e => simp [hf, Except.instMonad, Except.bind] at h
  | ok d =>
    simp only [hf, Except.instMonad, Except.bind] at h
    cases hl : d.quote.lookup g.currency with
    | none => simp [hl, Except.instMonad, Except.bind] at h
    | some e =>
      simp only [hl, Except.instMonad, Except.bind] at h
      cases hdo : g.display_options with
      | nil => exact absurd hdo hopts
      | cons d0 ds =>
        rw [hdo] at h
        simp only [exceptFold, Except.instMonad, Except.bind] at h
        cases hm : renderMetric g.display_options_format (cc.display_options_format.getD [])
            e cc.volume_precision cc.change_precision cc.price_precision d0 with
        | error err => rw [hm] at h; cases h
        | ok part =>
          rw [hm] at h
          have hpart : part ≠ "" := renderMetric_ok_ne_empty hm
          have hacc : cc.icon ++ part ≠ "" := append_ne_empty_right _ hpart
          refine exceptFold_acc_ne_empty _ ?_ ds (cc.icon ++ part) s h hacc
          intro acc dd ss hss haccne
          simp only [Except.instMonad, Except.bind] at hss
          cases hm2 : renderMetric g.display_options_format (cc.display_options_format.getD [])
              e cc.volume_precision cc.change_precision cc.price_precision dd with
          | error err => rw [hm2] at hss; cases hss
          | ok part2 =>
            rw [hm2] at hss
            cases hss
            exact append_ne_empty_left _ haccne

theorem renderCoin_ok_resolvable {g : ConfigGeneral} {data : List (String × QuoteData)}
    {cn : String} {cc : ConfigCoin} {s : String}
    (h : renderCoin g data cn cc = Except.ok s) :
    coinResolvable data g.currency cn = true := by
  unfold renderCoin at h
  cases hf : find_coin_data data cn with
  | error e => simp [hf, Except.instMonad, Except.bind] at h
  | ok d =>
    simp only [hf, Except.instMonad, Except.bind] at h
    cases hl : d.quote.lookup g.currency with
    | none => simp [hl, Except.instMonad, Except.bind] at h
    | some e => simp [coinResolvable, hf, hl]

theorem exceptMap_ok_mem_exists {f : α → Except ε β} :
    ∀ {l : List α} {ys : List β}, exceptMap f l = Except.ok ys →
      ∀ y ∈ ys, ∃ a ∈ l, f a = Except.ok y := by
  intro l
  induction l with
  | nil => intro ys h y hy; simp [exceptMap] at h; subst h; cases hy
  | cons a l ih =>
    intro ys h y hy
    simp only [exceptMap, Except.instMonad, Except.bind] at h
    cases hfa : f a with
    | error e => rw [hfa] at h; cases h
    | ok b =>
      rw [hfa] at h
      cases hml : exceptMap f l with
      | error e => rw [hml] at h; cases h
      | ok bs =>
        rw [hml] at h
        cases h
        rcases List.mem_cons.mp hy with hyb | hybs
        · exact ⟨a, List.mem_cons_self a l, hyb ▸ hfa⟩
        · rcases ih hml y hybs with ⟨a2, ha2, hfa2⟩
          exact ⟨a2, List.mem_cons_of_mem a ha2, hfa2⟩

theorem exceptMap_ok_forall {f : α → Except ε β} :
    ∀ {l : List α} {ys : List β}, exceptMap f l = Except.ok ys →
      ∀ a ∈ l, ∃ y, f a = Except.ok y := by
  intro l
  induction l with
  | nil => intro ys h a ha; cases ha
  | cons a0 l ih =>
    intro ys h a ha
    simp only [exceptMap, Except.instMonad, Except.bind] at h
    cases hfa : f a0 with
    | error e => rw [hfa] at h; cases h
    | ok b =>
      rw [hfa] at h
      cases hml : exceptMap f l with
      | error e => rw [hml] at h; cases h
      | ok bs =>
        rcases List.mem_cons.mp ha with rfl | hal
        · exact ⟨b, hfa⟩
        · exact ih hml a hal

theorem except_bind_ok (a : α) (f : α → Except ε β) :
    (Except.ok a >>= f) = f a := rfl

theorem except_bind_err (e : ε) (f : α → Except ε β) :
    ((Except.error e : Except ε α) >>= f) = Except.error e := rfl

theorem except_map_ok (g : α → β) (a : α) :
    Except.map g (Except.ok a : Except ε α) = Except.ok (g a) := rfl

theorem except_map_err (g : α → β) (e : ε) :
    Except.map g (Except.error e : Except ε α) = Except.error e := rfl

theorem exceptFold_append_eq (g : ConfigGeneral) (data : List (String × QuoteData))
    (spacer : String) :
    ∀ (coins : List (String × ConfigCoin)) (ob : WaybarOutput),
      exceptFold (fun output_obj kv => do
          let output ← renderCoin g data kv.1 kv.2
          Except.ok (appendBlock spacer output_obj output kv.2.in_tooltip)) ob coins
      = (exceptMap (fun kv => (renderCoin g data kv.1 kv.2).map
            (fun s => (s, kv.2.in_tooltip))) coins).map
          (fun bs => List.foldl (fun o b => appendBlock spacer o b.1 b.2) ob bs)
  | [], ob => rfl
  | kv :: coins, ob => by
    cases h : renderCoin g data kv.1 kv.2 with
    | error e =>
      simp only [exceptFold, exceptMap, h, except_bind_err, except_map_err, except_bind_ok]
    | ok s =>
      have ih := exceptFold_append_eq g data spacer coins
        (appendBlock spacer ob s kv.2.in_tooltip)
      simp only [exceptFold, exceptMap, h, except_bind_ok, except_map_ok]
      rw [ih]
      cases hml : exceptMap (fun kv => (renderCoin g data kv.1 kv.2).map
          (fun s => (s, kv.2.in_tooltip))) coins with
      | error e => simp only [hml, except_bind_err, except_map_err]
      | ok bs =>
        simp only [hml, except_bind_ok, except_map_ok, List.foldl_cons]

theorem bne_empty_of_ne {s : String} (h : s ≠ "") : (s != "") = true := by
  simpa using h

theorem bne_empty_self : ("" != "") = false := by decide

theorem foldl_appendBlock_char (spacer cn : String) :
    ∀ (bs : List (String × Bool)) (ms ts : List String),
      (∀ b ∈ bs, b.1 ≠ "") → (∀ m ∈ ms, m ≠ "") → (∀ t ∈ ts, t ≠ "") →
      List.foldl (fun o b => appendBlock spacer o b.1 b.2)
        ⟨joinSep (spacer ++ " ") ms, joinSep "\n" ts, cn⟩ bs
      = ⟨joinSep (spacer ++ " ") (ms ++ (bs.filter (fun b => !b.2)).map Prod.fst),
         joinSep "\n" (ts ++ (bs.filter (fun b => b.2)).map Prod.fst), cn⟩
  | [], ms, ts, _, _, _ => by simp
  | (s, tt) :: bs, ms, ts, hb, hm, ht => by
    have hs : s ≠ "" := hb (s, tt) (List.mem_cons_self _ _)
    cases tt with
    | true =>
      have hstep : appendBlock spacer ⟨joinSep (spacer ++ " ") ms, joinSep "\n" ts, cn⟩ s true
          = ⟨joinSep (spacer ++ " ") ms, joinSep "\n" (ts ++ [s]), cn⟩ := by
        cases ts with
        | nil =>
          simp [appendBlock, joinSep, bne_empty_self, String.empty_append]
        | cons t ts2 =>
          have hne := joinSep_ne_empty "\n" ts2 (ht t (List.mem_cons_self _ _))
          simp only [appendBlock, bne_empty_of_ne hne, if_true]
          rw [joinSep_snoc _ _ _ (by simp)]
          simp [String.append_assoc]
      rw [List.foldl_cons, hstep]
      rw [foldl_appendBlock_char spacer cn bs ms (ts ++ [s])
        (fun b hbmem => hb b (List.mem_cons_of_mem _ hbmem)) hm
        (by intro t htmem
            rcases List.mem_append.mp htmem with h1 | h2
            · exact ht t h1
            · simpa using (List.mem_singleton.mp h2) ▸ hs)]
      simp [List.filter_cons]
    | false =>
      have hstep : appendBlock spacer ⟨joinSep (spacer ++ " ") ms, joinSep "\n" ts, cn⟩ s false
          = ⟨joinSep (spacer ++ " ") (ms ++ [s]), joinSep "\n" ts, cn⟩ := by
        cases ms with
        | nil =>
          simp [appendBlock, joinSep, bne_empty_self, String.empty_append]
        | cons m ms2 =>
          have hne := joinSep_ne_empty (spacer ++ " ") ms2 (hm m (List.mem_cons_self _ _))
          simp only [appendBlock, bne_empty_of_ne hne, if_true]
          rw [joinSep_snoc _ _ _ (by simp)]
          simp [String.append_assoc]
      rw [List.foldl_cons, hstep]
      rw [foldl_appendBlock_char spacer cn bs (ms ++ [s]) ts
        (fun b hbmem => hb b (List.mem_cons_of_mem _ hbmem))
        (by intro m hmmem
            rcases List.mem_append.mp hmmem with h1 | h2
            · exact hm m h1
            · simpa using (List.mem_singleton.mp h2) ▸ hs) ht]
      simp [List.filter_cons]

theorem waybar_output_eq_blocks (config : Config) (q : ResponseQuotesLatest) :
    waybar_output config q
    = (renderBlocks config q).map (fun bs => List.foldl
        (fun o b => appendBlock
          (if config.general.spacer_symbol != "" then " " ++ config.general.spacer_symbol
            else config.general.spacer_symbol) o b.1 b.2)
        ⟨"", "", CLASS_NAME⟩ bs) := by
  unfold waybar_output renderBlocks
  exact exceptFold_append_eq _ _ _ _ _

theorem waybar_output_eq_spec_thm (config : Config) (q : ResponseQuotesLatest)
    (h : config.general.display_options ≠ []) :
    waybar_output config q = waybar_output_spec config q := by
  rw [waybar_output_eq_blocks]
  unfold waybar_output_spec
  cases hb : renderBlocks config q with
  | error e => rfl
  | ok bs =>
    have hne : ∀ b ∈ bs, b.1 ≠ "" := by
      intro b hbmem
      rcases exceptMap_ok_mem_exists hb b hbmem with ⟨kv, hkv, hren⟩
      cases hr : renderCoin config.general q.data kv.1 kv.2 with
      | error e => rw [hr, except_map_err] at hren; cases hren
      | ok s =>
        rw [hr, except_map_ok] at hren
        cases hren
        exact renderCoin_ok_ne_empty h hr
    simp only [except_map_ok]
    have hchar := foldl_appendBlock_char
      (if config.general.spacer_symbol != "" then " " ++ config.general.spacer_symbol
        else config.general.spacer_symbol) CLASS_NAME bs [] [] hne
      (by intro m hm; cases hm) (by intro t ht; cases ht)
    simp only [List.nil_append] at hchar
    rw [show (joinSep ((if config.general.spacer_symbol != "" then " " ++ config.general.spacer_symbol
        else config.general.spacer_symbol) ++ " ") ([] : List String)) = "" from rfl,
      show (joinSep "\n" ([] : List String)) = "" from rfl] at hchar
    rw [hchar]
    rfl

theorem renderCoin_find_error {g : ConfigGeneral} {data : List (String × QuoteData)}
    {cn : String} (cc : ConfigCoin) {e : PyErr}
    (h : find_coin_data data cn = Except.error e) :
    renderCoin g data cn cc = Except.error e := by
  unfold renderCoin
  rw [h, except_bind_err]

theorem renderCoin_currency_missing {g : ConfigGeneral} {data : List (String × QuoteData)}
    {cn : String} (cc : ConfigCoin) {d : QuoteData}
    (h1 : find_coin_data data cn = Except.ok d)
    (h2 : d.quote.lookup g.currency = none) :
    renderCoin g data cn cc = Except.error (PyErr.keyError g.currency) := by
  unfold renderCoin
  rw [h1, except_bind_ok]
  simp only [h2, except_bind_err]

theorem exceptMap_ok_map_snd {g : ConfigGeneral} {data : List (String × QuoteData)} :
    ∀ {coins : List (String × ConfigCoin)} {bs : List (String × Bool)},
      exceptMap (fun kv => (renderCoin g data kv.1 kv.2).map
        (fun s => (s, kv.2.in_tooltip))) coins = Except.ok bs →
      bs.map Prod.snd = coins.map (fun kv => kv.2.in_tooltip) := by
  intro coins
  induction coins with
  | nil => intro bs h; simp [exceptMap] at h; subst h; rfl
  | cons kv coins ih =>
    intro bs h
    simp only [exceptMap] at h
    cases hr : renderCoin g data kv.1 kv.2 with
    | error e => rw [hr, except_map_err, except_bind_err] at h; cases h
    | ok s =>
      rw [hr, except_map_ok, except_bind_ok] at h
      cases hml : exceptMap (fun kv => (renderCoin g data kv.1 kv.2).map
          (fun s => (s, kv.2.in_tooltip))) coins with
      | error e => rw [hml, except_bind_err] at h; cases h
      | ok bs2 =>
        rw [hml, except_bind_ok] at h
        cases h
        simp only [List.map_cons]
        rw [ih hml]

theorem exceptFold_frame_eq (cfg : Config) (q : ResponseQuotesLatest) (spacer : String) :
    ∀ (coins : List (String × ConfigCoin)) (ob : WaybarOutput),
      exceptFold (fun acc kv => do
          let conf := acc.2
          let output ← renderCoin conf.general q.data kv.1 kv.2
          Except.ok (appendBlock spacer acc.1 output kv.2.in_tooltip, conf))
        (ob, cfg) coins
      = (exceptFold (fun output_obj kv => do
          let output ← renderCoin cfg.general q.data kv.1 kv.2
          Except.ok (appendBlock spacer output_obj output kv.2.in_tooltip)) ob coins).map
          (fun ob2 => (ob2, cfg))
  | [], ob => rfl
  | kv :: coins, ob => by
    simp only [exceptFold]
    cases h : renderCoin cfg.general q.data kv.1 kv.2 with
    | error e => simp only [except_bind_err, except_map_err]
    | ok s =>
      simp only [except_bind_ok]
      exact exceptFold_frame_eq cfg q spacer coins (appendBlock spacer ob s kv.2.in_tooltip)


/-- C1: corrected against the code as a bug.  The claim says that a metric
with neither a global nor a per-asset format override is rendered with the
built-in default template, with the currency symbol prefixed once for
`price`.  The code instead raises `KeyError` at
`display_options_format[display_option]`: `waybar_output` never consults
`DEFAULT_DISPLAY_OPTIONS_FORMAT` and never uses the currency symbol, although
the built-in default for `price` exists and the comment in `read_config`
promises both are applied at render time.  Concretely, with no overrides at
all the render aborts with `KeyError` for `price` instead of producing the
default-formatted value. -/
theorem C1_thm :
    waybar_output c1cfg sampleResp = Except.error (PyErr.keyError "price")
    ∧ DEFAULT_DISPLAY_OPTIONS_FORMAT.lookup "price" = some FLOAT_FORMATTER
    ∧ c1cfg.general.display_options_format.lookup "price" = none
    ∧ (mkCoin "B" false none).display_options_format = none := by
  refine ⟨by rfl, by decide, by decide, by decide⟩

/-- C2 counterexample: the claim as stated fails because Python evaluates the
default argument of `.get` eagerly.  With the per-asset override present for
the one requested metric but the global mapping empty, the renderer does not
render the metric with the override: the global subscript raises `KeyError`
and the whole render aborts. -/
theorem C2_counterexample :
    ((mkCoin "B" false (some [("price", "P")])).display_options_format.getD
        []).lookup "price" = some "P"
    ∧ c2cfg.general.display_options_format.lookup "price" = none
    ∧ waybar_output c2cfg sampleResp = Except.error (PyErr.keyError "price") :=
  ⟨by decide, by decide, by rfl⟩

/-- C2 (amended): for a metric with a per-asset format override, whenever the
global mapping also contains an entry for that metric — in particular when a
conflicting global override exists — the renderer substitutes into the
per-asset override template, and the rendered text does not depend on the
value held by the global entry (the same output arises for any two global
mappings containing the metric).  When the global mapping lacks the metric,
the eagerly evaluated default subscript aborts the render with `KeyError`
despite the per-asset override (see the counterexample). -/
theorem C2_thm (dof dof2 cfo : List (String × String)) (e : QuoteEntry)
    (vp cp pp : Nat) (d f g g2 : String) (raw : PyFloat)
    (ho : cfo.lookup d = some f) (hg : dof.lookup d = some g)
    (hg2 : dof2.lookup d = some g2) (hq : quoteField e d = some raw) :
    renderMetric dof cfo e vp cp pp d
      = Except.ok (pyFormat (" " ++ f) (precisionFor d vp cp pp)
          (pyRound raw (precisionFor d vp cp pp)))
    ∧ renderMetric dof cfo e vp cp pp d = renderMetric dof2 cfo e vp cp pp d := by
  refine ⟨renderMetric_override dof cfo e vp cp pp d f g raw ho hg hq, ?_⟩
  rw [renderMetric_override dof cfo e vp cp pp d f g raw ho hg hq,
    renderMetric_override dof2 cfo e vp cp pp d f g2 raw ho hg2 hq]

/-- Witness for C2 at a concrete conflicting global override. -/
theorem C2_witness :
    ([("price", "P")] : List (String × String)).lookup "price" = some "P"
    ∧ ([("price", "G")] : List (String × String)).lookup "price" = some "G"
    ∧ quoteField sampleEntry "price" = some ⟨62885476, 3⟩
    ∧ renderMetric [("price", "G")] [("price", "P")] sampleEntry 1 2 3 "price"
        = Except.ok (pyFormat (" " ++ "P") (precisionFor "price" 1 2 3)
            (pyRound ⟨62885476, 3⟩ (precisionFor "price" 1 2 3))) :=
  ⟨by decide, by decide, by decide,
    (C2_thm [("price", "G")] [("price", "X")] [("price", "P")] sampleEntry 1 2 3
      "price" "P" "G" "X" ⟨62885476, 3⟩ (by decide) (by decide) (by decide)
      (by decide)).1⟩

/-- C3: `_find_coin_data` returns the record under the exactly matching key
when one exists, otherwise the value of the first key comparing equal
case-insensitively, otherwise the `symbol not found` error; in particular a
response keyed `Xaut` resolves for the configured symbol `XAUT`. -/
theorem C3_thm (data : List (String × QuoteData)) (symbol : String) :
    (∀ v, data.lookup symbol = some v → find_coin_data data symbol = Except.ok v)
    ∧ (∀ kv, data.lookup symbol = none →
        data.find? (fun p => pyLower p.1 == pyLower symbol) = some kv →
        find_coin_data data symbol = Except.ok kv.2)
    ∧ (data.lookup symbol = none →
        data.find? (fun p => pyLower p.1 == pyLower symbol) = none →
        find_coin_data data symbol = Except.error (PyErr.waybarCrypto
          ("symbol \x27" ++ symbol ++ "\x27 not found in API response")))
    ∧ (∀ d, find_coin_data [("Xaut", d)] "XAUT" = Except.ok d) := by
  refine ⟨?_, ?_, ?_, ?_⟩
  · intro v h; unfold find_coin_data; rw [h]
  · intro kv h1 h2; unfold find_coin_data; rw [h1]; simp only [h2]
  · intro h1 h2; unfold find_coin_data; rw [h1]; simp only [h2]
  · intro d
    have h1 : (List.lookup "XAUT" [("Xaut", d)]) = none := by
      simp [List.lookup, show (("Xaut" : String) == "XAUT") = false from by decide]
    have h2 : (List.find? (fun p => pyLower p.1 == pyLower "XAUT") [("Xaut", d)])
        = some ("Xaut", d) := by
      simp [List.find?, show (pyLower "Xaut" == pyLower "XAUT") = true from by decide]
    unfold find_coin_data
    rw [h1]
    simp only [h2]

/-- Witness for C3: the `Xaut` vs `XAUT` case-insensitive fallback. -/
theorem C3_witness : find_coin_data [("Xaut", btcData)] "XAUT" = Except.ok btcData :=
  (C3_thm [("Xaut", btcData)] "XAUT").2.1 ("Xaut", btcData) (by decide) (by decide)





/-- C4 counterexample: a missing symbol aborts with the package exception
class while a missing currency aborts with a `KeyError`, so the two failures
are not of the same failure class as the claim states. -/
theorem C4_counterexample :
    waybar_output c4cfgA sampleResp
      = Except.error (PyErr.waybarCrypto "symbol \x27DOGE\x27 not found in API response")
    ∧ waybar_output c4cfgB c4respB = Except.error (PyErr.keyError "EUR")
    ∧ errClass (PyErr.waybarCrypto "symbol \x27DOGE\x27 not found in API response")
        ≠ errClass (PyErr.keyError "EUR") :=
  ⟨by rfl, by rfl, by decide⟩

/-- C4 as amended: a configured symbol absent from the response, or the
configured currency absent from the located record, each abort the entire
render with an error and no partial output object (a successful render
requires every configured coin to be resolvable) — but the two failure
classes differ: a missing symbol raises `WaybarCryptoException` while a
missing currency raises a builtin `KeyError`. -/
theorem C4_thm (cfg : Config) (q : ResponseQuotesLatest) :
    (∀ out, waybar_output cfg q = Except.ok out →
      ∀ kv ∈ cfg.coins, coinResolvable q.data cfg.general.currency kv.1 = true)
    ∧ (∀ s cc e2, cfg.coins = [(s, cc)] → find_coin_data q.data s = Except.error e2 →
        waybar_output cfg q = Except.error e2)
    ∧ (∀ s cc d, cfg.coins = [(s, cc)] → find_coin_data q.data s = Except.ok d →
        d.quote.lookup cfg.general.currency = none →
        waybar_output cfg q = Except.error (PyErr.keyError cfg.general.currency)) := by
  refine ⟨?_, ?_, ?_⟩
  · intro out hok kv hkv
    rw [waybar_output_eq_blocks] at hok
    cases hb : renderBlocks cfg q with
    | error e => rw [hb, except_map_err] at hok; cases hok
    | ok bs =>
      rcases exceptMap_ok_forall hb kv hkv with ⟨y, hy⟩
      cases hr : renderCoin cfg.general q.data kv.1 kv.2 with
      | error e => rw [hr, except_map_err] at hy; cases hy
      | ok s => exact renderCoin_ok_resolvable hr
  · intro s cc e2 hcoins hferr
    unfold waybar_output
    rw [hcoins]
    simp only [exceptFold, renderCoin_find_error cc hferr, except_bind_err]
  · intro s cc d hcoins hfok hmiss
    unfold waybar_output
    rw [hcoins]
    simp only [exceptFold, renderCoin_currency_missing cc hfok hmiss, except_bind_err]

/-- Witness for C4: a successful render implies resolvability. -/
theorem C4_witness :
    coinResolvable sampleResp.data "EUR" "BTC" = true :=
  (C4_thm c4cfgB sampleResp).1 ⟨"B p", "", "crypto"⟩ (by rfl)
    ("BTC", mkCoin "B" false none) (List.mem_cons_self _ _)

/-- C5: separator transition rule and separator law.  On a successful render
with at least one requested metric, the main line is exactly the main-line
blocks joined by the spacer-prefixed separator and the tooltip is exactly the
tooltip blocks joined by newlines (so N blocks carry N−1 separators, none
before the first), and the block counts equal the counts of coins placed on
each side. -/
theorem C5_thm (cfg : Config) (q : ResponseQuotesLatest) (out : WaybarOutput)
    (hopts : cfg.general.display_options ≠ [])
    (h : waybar_output cfg q = Except.ok out) :
    out.text = joinSep (mainSeparator cfg.general.spacer_symbol) (mainBlocks cfg q)
    ∧ out.tooltip = joinSep "\n" (tooltipBlocks cfg q)
    ∧ (mainBlocks cfg q).length
        = (cfg.coins.filter (fun kv => !kv.2.in_tooltip)).length
    ∧ (tooltipBlocks cfg q).length
        = (cfg.coins.filter (fun kv => kv.2.in_tooltip)).length := by
  rw [waybar_output_eq_spec_thm cfg q hopts] at h
  unfold waybar_output_spec at h
  cases hb : renderBlocks cfg q with
  | error e => rw [hb, except_map_err] at h; cases h
  | ok bs =>
    rw [hb, except_map_ok] at h
    cases h
    have hsnd : bs.map Prod.snd = cfg.coins.map (fun kv => kv.2.in_tooltip) :=
      exceptMap_ok_map_snd hb
    have hmain : mainBlocks cfg q = (bs.filter (fun b => !b.2)).map Prod.fst := by
      unfold mainBlocks; rw [hb]
    have htip : tooltipBlocks cfg q = (bs.filter (fun b => b.2)).map Prod.fst := by
      unfold tooltipBlocks; rw [hb]
    refine ⟨by rw [hmain], by rw [htip], ?_, ?_⟩
    · rw [hmain]
      rw [List.length_map, ← List.countP_eq_length_filter, ← List.countP_eq_length_filter]
      have h1 : bs.countP (fun b => !b.2) = (bs.map Prod.snd).countP (fun x => !x) := by
        rw [List.countP_map]; rfl
      rw [h1, hsnd, List.countP_map]
      rfl
    · rw [htip]
      rw [List.length_map, ← List.countP_eq_length_filter, ← List.countP_eq_length_filter]
      have h1 : bs.countP (fun b => b.2) = (bs.map Prod.snd).countP (fun x => x) := by
        rw [List.countP_map]; rfl
      rw [h1, hsnd, List.countP_map]
      rfl



/-- Witness for C5 on a three-coin render (two main, one tooltip). -/
theorem C5_witness :
    (⟨"Ai p | Bi p", "Ci p", "crypto"⟩ : WaybarOutput).text
      = joinSep (mainSeparator wcfg5.general.spacer_symbol) (mainBlocks wcfg5 wresp5)
    ∧ (⟨"Ai p | Bi p", "Ci p", "crypto"⟩ : WaybarOutput).tooltip
      = joinSep "\n" (tooltipBlocks wcfg5 wresp5)
    ∧ (mainBlocks wcfg5 wresp5).length
      = (wcfg5.coins.filter (fun kv => !kv.2.in_tooltip)).length
    ∧ (tooltipBlocks wcfg5 wresp5).length
      = (wcfg5.coins.filter (fun kv => kv.2.in_tooltip)).length :=
  C5_thm wcfg5 wresp5 ⟨"Ai p | Bi p", "Ci p", "crypto"⟩ (by decide) (by rfl)


/-- C6: corrected against the code as a bug.  The claim (and the spec) say
that when every asset is placed in the tooltip the main line falls back to
the concatenation of the bare icons and is never empty; the code has no such
fallback path, and a configuration whose only coin is in the tooltip renders
`text = ""`, not the icon string. -/
theorem C6_thm :
    waybar_output c6cfg sampleResp
      = Except.ok { text := "", tooltip := "B p", className := "crypto" }
    ∧ c6cfg.coins.length = 1
    ∧ (⟨"", "B p", "crypto"⟩ : WaybarOutput).text ≠ (mkCoin "B" true none).icon :=
  ⟨by rfl, by decide, by decide⟩

/-- C7: precision routing is by ordered substring tests — `volume` first,
then `change`, then `price`, else the fixed default 2 — so an identifier
containing both `volume` and `change` (such as `volume_change_24h`) takes the
volume precision. -/
theorem C7_thm (opt : String) (vp cp pp : Nat) :
    (strContains opt "volume" = true → precisionFor opt vp cp pp = vp)
    ∧ (strContains opt "volume" = false → strContains opt "change" = true →
        precisionFor opt vp cp pp = cp)
    ∧ (strContains opt "volume" = false → strContains opt "change" = false →
        strContains opt "price" = true → precisionFor opt vp cp pp = pp)
    ∧ (strContains opt "volume" = false → strContains opt "change" = false →
        strContains opt "price" = false → precisionFor opt vp cp pp = DEFAULT_PRECISION)
    ∧ (strContains "volume_change_24h" "volume" = true
        ∧ strContains "volume_change_24h" "change" = true
        ∧ precisionFor "volume_change_24h" vp cp pp = vp) := by
  refine ⟨?_, ?_, ?_, ?_, by decide, by decide, ?_⟩
  · intro h1; simp [precisionFor, h1]
  · intro h1 h2; simp [precisionFor, h1, h2]
  · intro h1 h2 h3; simp [precisionFor, h1, h2, h3]
  · intro h1 h2 h3; simp [precisionFor, h1, h2, h3]
  · simp [precisionFor, show strContains "volume_change_24h" "volume" = true from by decide]

/-- Witness for C7 at the `volume_24h` metric. -/
theorem C7_witness :
    strContains "volume_24h" "volume" = true ∧ precisionFor "volume_24h" 3 4 5 = 3 :=
  ⟨by decide, (C7_thm "volume_24h" 3 4 5).1 (by decide)⟩

/-- C8: the renderer is deterministic — two calls on identical configuration
and response values give identical output — and on success the output equals
the order-explicit specification renderer, which renders coins in configured
order and metrics in configured display-option order. -/
theorem C8_thm (cfg cfg2 : Config) (q q2 : ResponseQuotesLatest)
    (h1 : cfg2 = cfg) (h2 : q2 = q) (hopts : cfg.general.display_options ≠ []) :
    waybar_output cfg2 q2 = waybar_output cfg q
    ∧ waybar_output cfg q = waybar_output_spec cfg q := by
  exact ⟨by rw [h1, h2], waybar_output_eq_spec_thm cfg q hopts⟩

/-- Witness for C8 on the three-coin configuration. -/
theorem C8_witness :
    waybar_output wcfg5 wresp5 = waybar_output wcfg5 wresp5
    ∧ waybar_output wcfg5 wresp5 = waybar_output_spec wcfg5 wresp5 :=
  C8_thm wcfg5 wcfg5 wresp5 wresp5 rfl rfl (by decide)

/-- C9: the renderer does not modify the configuration it reads: the
state-passing translation returns the configuration unchanged alongside the
same result as the pure renderer, for every configuration and response. -/
theorem C9_thm (cfg : Config) (q : ResponseQuotesLatest) :
    waybar_output_frame cfg q
      = (waybar_output cfg q).map (fun ob => (ob, cfg)) := by
  unfold waybar_output_frame waybar_output
  exact exceptFold_frame_eq cfg q _ cfg.coins _

/-- C10: with an empty spacer symbol two consecutive main-line blocks are
separated by exactly one space, and with a non-empty spacer symbol by
space, symbol, space; the two-block fold of the renderer loop inserts
exactly that separator between the blocks. -/
theorem C10_thm (sym b1 b2 : String) (h1 : b1 ≠ "") :
    mainSeparator "" = " "
    ∧ (sym ≠ "" → mainSeparator sym = " " ++ sym ++ " ")
    ∧ (List.foldl (fun o b => appendBlock
        (if sym != "" then " " ++ sym else sym) o b.1 b.2)
        ⟨"", "", CLASS_NAME⟩ [(b1, false), (b2, false)]).text
      = b1 ++ mainSeparator sym ++ b2 := by
  refine ⟨by decide, ?_, ?_⟩
  · intro h
    simp [mainSeparator, h, String.append_assoc]
  · simp only [List.foldl_cons, List.foldl_nil, appendBlock]
    simp only [bne_empty_self, Bool.false_eq_true, if_false, String.empty_append,
      bne_empty_of_ne h1, if_true]
    simp [mainSeparator, String.append_assoc]

/-- Witness for C10 with the pipe spacer symbol. -/
theorem C10_witness :
    mainSeparator "" = " "
    ∧ (("|" : String) ≠ "" → mainSeparator "|" = " " ++ "|" ++ " ")
    ∧ (List.foldl (fun o b => appendBlock
        (if ("|" : String) != "" then " " ++ "|" else "|") o b.1 b.2)
        ⟨"", "", CLASS_NAME⟩ [("x", false), ("y", false)]).text
      = "x" ++ mainSeparator "|" ++ "y" :=
  C10_thm "|" "x" "y" (by decide)

end WaybarCrypto
